import Mathlib

/-!
Verification of the smart-music-suggestor backend against its specification.

The development shallowly embeds the Python sources under `src/backend/`:
strings become `List Char`, dictionaries become structures or association
lists, exceptions become `Except`, and the two uses of the `random` module
(`random.sample` in the fallback provider and `random.shuffle` in the
ranking step) are abstracted by a `seed : Nat` parameter selecting a
rotation, which is one permutation among those the source may produce; the
theorems below depend only on length and membership facts that hold for
every permutation.  Character classes are modelled over ASCII: `\w` in
Python's `re` matches alphanumerics and the underscore, `\s` matches the
six ASCII whitespace characters (plus Unicode ones, out of scope here).
-/

/-! ## Character classes and sanitization (src/backend/handler.py) -/

/-- ASCII model of Python's regex class `\s`: space, tab, newline,
carriage return, vertical tab, form feed. -/
def isSpaceChar (c : Char) : Bool :=
  c == ' ' || c == '\t' || c == '\n' || c == '\r' || c == '\x0b' || c == '\x0c'

/-- ASCII model of Python's regex class `\w`: alphanumeric or underscore. -/
def isWordChar (c : Char) : Bool :=
  c.isAlphanum || c == '_'

/-- Embeds `re.sub(r'[^\w\s]', '', query)` from
`SuggestionHandler.sanitize_query` (handler.py line 40): delete every
character that is neither a word character nor whitespace. -/
def stripNonWord (s : List Char) : List Char :=
  s.filter (fun c => isWordChar c || isSpaceChar c)

/-- Embeds `re.sub(r'\s+', ' ', cleaned)` (handler.py line 41): replace
every maximal run of whitespace characters by a single space. -/
def collapseWS : List Char → List Char
  | [] => []
  | [c] => if isSpaceChar c then [' '] else [c]
  | c :: d :: rest =>
    if isSpaceChar c then
      if isSpaceChar d then collapseWS (d :: rest)
      else ' ' :: collapseWS (d :: rest)
    else c :: collapseWS (d :: rest)

/-- Embeds the left half of Python's `str.strip()`: drop leading
whitespace. -/
def lstrip (s : List Char) : List Char :=
  s.dropWhile isSpaceChar

/-- Embeds Python's `str.strip()` (handler.py lines 41 and 51): drop
leading and trailing whitespace. -/
def pyStrip (s : List Char) : List Char :=
  ((lstrip s).reverse.dropWhile isSpaceChar).reverse

/-- Embeds `SuggestionHandler.sanitize_query` (handler.py lines 36-43):
remove characters outside `\w`/`\s`, collapse whitespace runs to a single
space, then strip. -/
def sanitize_query (s : List Char) : List Char :=
  pyStrip (collapseWS (stripNonWord s))

/-! ## Songs and the fallback provider (src/backend/fallback.py) -/

/-- A normalized song record as produced by `YouTubeCommunicator._parse_response`
and stored in `FALLBACK_SONGS`.  `title`, `description` and `thumbnail` are
optional because `dict.get` yields `None` when the external record lacks the
field (and the fallback catalog entries carry no `description` key);
`video_id` is mandatory because records without one are dropped. -/
structure Song where
  title : Option String
  description : Option String
  video_id : String
  thumbnail : Option String
deriving DecidableEq

/-- The fixed fallback song catalog `FALLBACK_SONGS` (fallback.py lines 33-39). -/
def FALLBACK_SONGS : List Song :=
  [ ⟨some "Shape of You", none, "JGwWNGJdvx8", some "https://i.ytimg.com/vi/JGwWNGJdvx8/default.jpg"⟩,
    ⟨some "Blinding Lights", none, "4NRXx6U8ABQ", some "https://i.ytimg.com/vi/4NRXx6U8ABQ/default.jpg"⟩,
    ⟨some "Levitating", none, "TUVcZfQe-Kw", some "https://i.ytimg.com/vi/TUVcZfQe-Kw/default.jpg"⟩,
    ⟨some "Dance Monkey", none, "q0hyYWKXF0Q", some "https://i.ytimg.com/vi/q0hyYWKXF0Q/default.jpg"⟩,
    ⟨some "Someone You Loved", none, "zABLecsR5UE", some "https://i.ytimg.com/vi/zABLecsR5UE/default.jpg"⟩ ]

/-- Model of `random.sample(l, k)`: the randomness is abstracted by `seed`,
which selects a rotation of the list; the sample is the first `k` elements
of that rotation.  Every property proved below (length `k`, elements drawn
from `l`) holds for any sample the source could draw. -/
def randomSample (seed : Nat) (l : List Song) (k : Nat) : List Song :=
  (l.rotate seed).take k

/-- Embeds `FallbackHandler.get_songs` (fallback.py lines 62-67):
`random.sample(FALLBACK_SONGS, k=min(limit, len(FALLBACK_SONGS)))`. -/
def get_songs (seed : Nat) (limit : Nat) : List Song :=
  randomSample seed FALLBACK_SONGS (min limit FALLBACK_SONGS.length)

/-- Modelled from the spec: `fallback_response` is imported by
`src/backend/handler.py` (line 16) from `backend.fallback` and called on
the handler's exception path (line 77), but its definition is absent from
`src/`.  Spec sections 4.2/4.3 state that on any exception the pipeline
returns "the Fallback Provider's song sample", i.e. `songs(limit = 5)`:
a random sample of size `min(5, catalogSize)` from the fixed catalog. -/
def fallback_response (seed : Nat) : List Song :=
  get_songs seed 5

/-- Instance state of `FallbackHandler` (fallback.py lines 54-57):
`retry_count` starts at 0 and is cumulative across calls; `max_retries`
is 3. -/
structure FallbackHandler where
  retry_count : Nat
  max_retries : Nat
deriving DecidableEq

/-- Embeds `FallbackHandler.__init__`. -/
def FallbackHandler.init : FallbackHandler :=
  ⟨0, 3⟩

/-- Structural-fuel embedding of the `while self.retry_count < self.max_retries`
loop of `FallbackHandler.attempt_recovery` (fallback.py lines 83-91).
`gas` is `max_retries - retry_count`, which decreases by one exactly when
`retry_count` increases by one, so `gas = 0` iff the loop guard fails.
The fallible callee is modelled as `f : Nat → Except Unit (List Song)`
applied to the index of the call (so "always raises" is `∀ n, f n = error`);
`calls` counts invocations of `f`.  Returns (result, final retry_count,
final call count). -/
def recoveryLoop (f : Nat → Except Unit (List Song)) (seed : Nat) :
    Nat → Nat → Nat → List Song × Nat × Nat
  | 0, retry, calls => (get_songs seed 5, retry, calls)
  | gas + 1, retry, calls =>
    match f calls with
    | .ok r => (r, retry, calls + 1)
    | .error _ => recoveryLoop f seed gas (retry + 1) (calls + 1)

/-- Embeds `FallbackHandler.attempt_recovery` (fallback.py lines 79-92):
retries `f` while `retry_count < max_retries`, incrementing the cumulative
`retry_count` on each failure, and falls back to `get_songs()` when the
guard fails.  Returns (result, updated handler, number of calls to `f`). -/
def attempt_recovery (fb : FallbackHandler) (f : Nat → Except Unit (List Song))
    (seed : Nat) : List Song × FallbackHandler × Nat :=
  let out := recoveryLoop f seed (fb.max_retries - fb.retry_count) fb.retry_count 0
  (out.1, ⟨out.2.1, fb.max_retries⟩, out.2.2)

/-! ## Ranking and the suggestion handler (src/backend/handler.py) -/

/-- The sort key of `_rank_results` (handler.py line 85): `len(x['title'])`.
Only evaluated when the title is present; `rank_results` raises otherwise. -/
def titleLen (s : Song) : Nat :=
  (s.title.getD "").length

/-- Stable insertion into a list sorted descending by `titleLen`: the new
element goes after every element whose key is `≥` its own, which is the
order `sorted(..., key=len, reverse=True)` produces (Python's sort is
stable and `reverse=True` keeps equal elements in original order). -/
def insertByTitleLen (x : Song) : List Song → List Song
  | [] => [x]
  | y :: ys => if titleLen x ≤ titleLen y then y :: insertByTitleLen x ys else x :: y :: ys

/-- Embeds `sorted(results, key=lambda x: len(x['title']), reverse=True)`
(handler.py line 85) as a stable insertion sort. -/
def sortByTitleLenDesc (l : List Song) : List Song :=
  l.foldl (fun acc x => insertByTitleLen x acc) []

/-- Model of `random.shuffle` (handler.py line 86): an unspecified
permutation, abstracted as a seed-indexed rotation. -/
def shuffleModel (seed : Nat) (l : List Song) : List Song :=
  l.rotate seed

/-- Embeds `SuggestionHandler._rank_results` (handler.py lines 79-88):
sort descending by title length, then shuffle.  In Python `len(x['title'])`
raises `TypeError` when a title is `None`, so the step is fallible; the
exception is caught by `handle`'s `except` clause. -/
def rank_results (seed : Nat) (results : List Song) : Except Unit (List Song) :=
  if results.all (fun s => s.title.isSome) then
    .ok (shuffleModel seed (sortByTitleLenDesc results))
  else
    .error ()

/-- State of a `SuggestionHandler` instance: the in-memory cache
(`self.cache`, a dict from sanitized query to ranked results, modelled as
an association list with newest binding first) together with the Search
Client's request counter.  `YouTubeCommunicator._increment_request_counter`
(communicator.py lines 167-172) runs once per `search` invocation that
passes the empty-query check, and `handle` invokes `search` at most once,
so threading the counter through `handle` at the call site is faithful. -/
structure SuggestionHandlerState where
  cache : List (List Char × List Song)
  client_calls : Nat
deriving DecidableEq

/-- Lookup in the cache model, mirroring Python dict lookup. -/
def cacheLookup (q : List Char) : List (List Char × List Song) → Option (List Song)
  | [] => none
  | (k, v) :: rest => if k = q then some v else cacheLookup q rest

/-- Embeds `SuggestionHandler.handle` (handler.py lines 45-77).  The Search
Client is a parameter `client : List Char → Except Unit (List Song)` so
that both the real communicator (which never raises) and a mock that
raises can be plugged in; `handle` wraps the fetch and the reorder step in
`try/except` and answers `fallback_response()` on any exception, without
caching.  Request flow: trim the raw query, return `[]` if shorter than 2,
sanitize, return a cache hit verbatim, otherwise fetch, rank, cache and
return. -/
def handle (client : List Char → Except Unit (List Song))
    (shuffleSeed fallbackSeed : Nat) (st : SuggestionHandlerState)
    (rawQuery : List Char) : List Song × SuggestionHandlerState :=
  let raw := pyStrip rawQuery
  if raw.length < 2 then ([], st)
  else
    let query := sanitize_query raw
    match cacheLookup query st.cache with
    | some cached => (cached, st)
    | none =>
      let st' : SuggestionHandlerState := { st with client_calls := st.client_calls + 1 }
      match client query with
      | .error _ => (fallback_response fallbackSeed, st')
      | .ok results =>
        match rank_results shuffleSeed results with
        | .error _ => (fallback_response fallbackSeed, st')
        | .ok ranked => (ranked, { st' with cache := (query, ranked) :: st'.cache })

/-! ## The Search Client (src/backend/communicator.py) -/

/-- One record of the external response, projected onto the paths
`_parse_response` reads: `item.get("id", {}).get("videoId")` (absent level
gives `None`, hence `Option`), `snippet.get("title")`,
`snippet.get("description")` and
`snippet.get("thumbnails", {}).get("default", {}).get("url")`. -/
structure RawItem where
  videoId : Option String
  title : Option String
  description : Option String
  thumbnail : Option String
deriving DecidableEq

/-- The dropping condition of `_parse_response` (communicator.py line 148):
`if not video_id: continue`.  In Python both `None` and the empty string
are falsy, matching the spec's invariant that a live-sourced `video_id` is
present and non-empty. -/
def hasVideoId (it : RawItem) : Bool :=
  match it.videoId with
  | none => false
  | some s => !s.isEmpty

/-- Embeds `YouTubeCommunicator._parse_response` (communicator.py lines
137-161): walk the items in order, skip any record whose identifier is
falsy, and normalize the rest. -/
def parse_response : List RawItem → List Song
  | [] => []
  | it :: rest =>
    match it.videoId with
    | none => parse_response rest
    | some vid =>
      if vid.isEmpty then parse_response rest
      else ⟨it.title, it.description, vid, it.thumbnail⟩ :: parse_response rest

/-- Embeds `max_results = max_results or self.DEFAULT_MAX_RESULTS`
(communicator.py line 98): `None` and `0` are falsy, so both yield 7. -/
def resolveMaxResults : Option Nat → Nat
  | none => 7
  | some n => if n = 0 then 7 else n

/-- Embeds `YouTubeCommunicator.search` (communicator.py lines 83-113).
The external call (`_execute_search` plus everything that can raise inside
the `try`) is a parameter `execute : List Char → Nat → Except Unit (List
RawItem)`.  The result type is `Except` to show whether `search` itself
raises to its caller; both `except` clauses convert to `.ok []`, so it
never does.  `count` is `self.request_count`, incremented exactly when the
empty-query short-circuit is not taken. -/
def search (execute : List Char → Nat → Except Unit (List RawItem))
    (query : List Char) (maxResults : Option Nat) (count : Nat) :
    Except Unit (List Song) × Nat :=
  if query.isEmpty then (.ok [], count)
  else
    let mr := resolveMaxResults maxResults
    let count' := count + 1
    match execute query mr with
    | .ok resp => (.ok (parse_response resp), count')
    | .error _ => (.ok [], count')

/-- The Search Client as seen by `SuggestionHandler.handle`
(`self.client.search(query)`, handler.py line 66): no `max_results`
argument, fresh counter irrelevant to the returned value. -/
def ytClient (execute : List Char → Nat → Except Unit (List RawItem)) :
    List Char → Except Unit (List Song) :=
  fun q => (search execute q none 0).1

/-- Embeds `YouTubeCommunicator.health_check` (communicator.py lines
187-195): probe `search("test", max_results=1)` inside `try`, answer
`True` on normal return and `False` if the probe raises. -/
def health_check (execute : List Char → Nat → Except Unit (List RawItem))
    (count : Nat) : Bool × Nat :=
  match search execute ['t', 'e', 's', 't'] (some 1) count with
  | (.ok _, c) => (true, c)
  | (.error _, c) => (false, c)

/-! ## The webhook ingestor (src/backend/webhook.py) -/

/-- Minimal JSON value model: only the shapes `_validate_payload` and
`_process_event` distinguish (object, string, anything else collapsed to
`null`). -/
inductive JVal where
  | obj : List (String × JVal) → JVal
  | str : String → JVal
  | jnull : JVal

/-- Key membership in a JSON object, mirroring Python's `"k" in payload`. -/
def hasKey (fields : List (String × JVal)) (key : String) : Bool :=
  fields.any (fun kv => kv.1 == key)

/-- Embeds `WebhookHandler._validate_payload` (webhook.py lines 103-113):
require a JSON object, then `event_type`, then `data`; raise `ValueError`
otherwise. -/
def validate_payload : JVal → Except String Unit
  | .obj fields =>
    if hasKey fields "event_type" then
      if hasKey fields "data" then .ok ()
      else .error "Missing data field"
    else .error "Missing event_type field"
  | _ => .error "Payload must be a JSON object"

/-- The three counters of `WebhookHandler.__init__` (webhook.py lines 41-45). -/
structure WebhookMetrics where
  events_received : Nat
  events_processed : Nat
  events_failed : Nat
deriving DecidableEq

/-- Embeds the `webhook_endpoint` closure (webhook.py lines 55-72).
`body = none` models `request.get_json(force=True)` raising on an
unparseable body.  Returns (HTTP status, updated metrics, payload handed
to the spawned background thread, or `none` when no thread is started).
The `events_processed` counter is touched only by `_process_event`, which
runs solely on the spawned payload. -/
def webhook_endpoint (m : WebhookMetrics) (body : Option JVal) :
    Nat × WebhookMetrics × Option JVal :=
  let m1 : WebhookMetrics := { m with events_received := m.events_received + 1 }
  match body with
  | none => (400, { m1 with events_failed := m1.events_failed + 1 }, none)
  | some payload =>
    match validate_payload payload with
    | .ok _ => (202, m1, some payload)
    | .error _ => (400, { m1 with events_failed := m1.events_failed + 1 }, none)

/-- Embeds `WebhookHandler._process_event` (webhook.py lines 77-98): the
dispatch target (`song_update` / `playlist_update` / generic) is log-only,
so the body never raises and the `except` branch incrementing
`events_failed` is dead; `events_processed` increments on completion. -/
def process_event (m : WebhookMetrics) (_payload : JVal) : WebhookMetrics :=
  { m with events_processed := m.events_processed + 1 }

/-- A whole webhook request: the synchronous endpoint followed by the
background thread (if one was spawned) running to completion.  Returns
(HTTP status, metrics after the background work). -/
def webhook_request (m : WebhookMetrics) (body : Option JVal) :
    Nat × WebhookMetrics :=
  let out := webhook_endpoint m body
  match out.2.2 with
  | none => (out.1, out.2.1)
  | some p => (out.1, process_event out.2.1 p)

/-! ## The realtime broadcaster (src/backend/sockets.py) -/

/-- Characters of a string literal, used to embed Python f-strings. -/
def strChars (s : String) : List Char :=
  s.data

/-- A synthetic suggestion record built by `SocketManager.generate_suggestions`. -/
structure SocketSuggestion where
  title : List Char
  video_id : List Char
  thumbnail : List Char
deriving DecidableEq

/-- Embeds `SocketManager.generate_suggestions` (sockets.py lines 98-109):
five locally synthesized records; for index `i` in `range(5)` the title is
`f"{query} song {i+1}"`, the identifier `f"{query[:3]}_{i}"` and the
thumbnail `f"https://i.ytimg.com/vi/{query[:3]}_{i}/default.jpg"`.  This
function takes no Search Client: the socket path never performs an
external call. -/
def generate_suggestions (query : List Char) : List SocketSuggestion :=
  (List.range 5).map (fun i =>
    ⟨ query ++ strChars " song " ++ Nat.toDigits 10 (i + 1),
      query.take 3 ++ ['_'] ++ Nat.toDigits 10 i,
      strChars "https://i.ytimg.com/vi/" ++ query.take 3 ++ ['_'] ++ Nat.toDigits 10 i
        ++ strChars "/default.jpg" ⟩)

/-- Embeds the `handle_suggestion_update` closure (sockets.py lines 86-93):
increment the events-received counter, read `query` (default `""`) and
`room` (default `"global"`) from the event data, and emit the generated
suggestions to the room.  Returns (new counter, target room, broadcast
records). -/
def handle_suggestion_update (eventsReceived : Nat)
    (dataQuery dataRoom : Option (List Char)) :
    Nat × List Char × List SocketSuggestion :=
  let query := dataQuery.getD []
  let room := dataRoom.getD (strChars "global")
  (eventsReceived + 1, room, generate_suggestions query)

/-! ## Sanitization lemmas -/

/-- Characters of a sanitized string: word characters or the single space. -/
def goodChar (c : Char) : Bool :=
  isWordChar c || c == ' '

/-- No two adjacent characters are both whitespace. -/
def NoAdj (l : List Char) : Prop :=
  l.Chain' (fun a b => ¬(isSpaceChar a = true ∧ isSpaceChar b = true))

/-- The first character, if any, is not whitespace. -/
def HeadOK (l : List Char) : Prop :=
  ∀ c, l.head? = some c → isSpaceChar c = false

/-- The last character, if any, is not whitespace. -/
def LastOK (l : List Char) : Prop :=
  ∀ c, l.getLast? = some c → isSpaceChar c = false

theorem space_not_word (c : Char) (hs : isSpaceChar c = true) : isWordChar c = false := by
  simp only [isSpaceChar, Bool.or_eq_true, beq_iff_eq] at hs
  rcases hs with ((((h | h) | h) | h) | h) | h <;> subst h <;> decide

theorem mem_stripNonWord {c : Char} {s : List Char} (h : c ∈ stripNonWord s) :
    (isWordChar c || isSpaceChar c) = true := by
  unfold stripNonWord at h
  simpa using List.of_mem_filter h

theorem collapseWS_good {s : List Char}
    (hs : ∀ c ∈ s, (isWordChar c || isSpaceChar c) = true) :
    ∀ c ∈ collapseWS s, goodChar c = true := by
  induction s using collapseWS.induct with
  | case1 => intro x hx; simp [collapseWS] at hx
  | case2 c hc =>
    intro x hx
    simp only [collapseWS, if_pos hc, List.mem_singleton] at hx
    subst hx; decide
  | case3 c hc =>
    intro x hx
    simp only [collapseWS, if_neg hc, List.mem_singleton] at hx
    subst hx
    have h1 := hs x (by simp)
    simp only [Bool.or_eq_true] at h1
    rcases h1 with h1 | h1
    · simp [goodChar, h1]
    · exact absurd h1 hc
  | case4 c d rest hc hd ih =>
    intro x hx
    simp only [collapseWS, if_pos hc, if_pos hd] at hx
    exact ih (fun y hy => hs y (List.mem_cons_of_mem c hy)) x hx
  | case5 c d rest hc hd ih =>
    intro x hx
    simp only [collapseWS, if_pos hc, if_neg hd, List.mem_cons] at hx
    rcases hx with rfl | hx
    · decide
    · exact ih (fun y hy => hs y (List.mem_cons_of_mem c hy)) x hx
  | case6 c d rest hc ih =>
    intro x hx
    simp only [collapseWS, if_neg hc, List.mem_cons] at hx
    rcases hx with rfl | hx
    · have h1 := hs x (by simp)
      simp only [Bool.or_eq_true] at h1
      rcases h1 with h1 | h1
      · simp [goodChar, h1]
      · exact absurd h1 hc
    · exact ih (fun y hy => hs y (List.mem_cons_of_mem c hy)) x hx

theorem collapseWS_head_not_space {d : Char} {rest : List Char}
    (hd : ¬isSpaceChar d = true) :
    (collapseWS (d :: rest)).head? = some d := by
  cases rest with
  | nil => simp [collapseWS, if_neg hd]
  | cons e r => simp [collapseWS, if_neg hd]

theorem collapseWS_noAdj (s : List Char) : NoAdj (collapseWS s) := by
  induction s using collapseWS.induct with
  | case1 => simp [collapseWS, NoAdj]
  | case2 c hc => simp [collapseWS, if_pos hc, NoAdj]
  | case3 c hc => simp [collapseWS, if_neg hc, NoAdj]
  | case4 c d rest hc hd ih =>
    unfold NoAdj at ih ⊢
    simpa only [collapseWS, if_pos hc, if_pos hd] using ih
  | case5 c d rest hc hd ih =>
    unfold NoAdj at ih ⊢
    simp only [collapseWS, if_pos hc, if_neg hd]
    refine ih.cons' (fun y hy => ?_)
    rw [collapseWS_head_not_space hd] at hy
    simp only [Option.mem_def, Option.some_inj] at hy
    subst hy
    intro hcon
    exact hd hcon.2
  | case6 c d rest hc ih =>
    unfold NoAdj at ih ⊢
    simp only [collapseWS, if_neg hc]
    refine ih.cons' (fun y hy => ?_)
    intro hcon
    exact hc hcon.1

theorem head?_dropWhile_not_space :
    ∀ (l : List Char) (c : Char),
      (l.dropWhile isSpaceChar).head? = some c → isSpaceChar c = false := by
  intro l
  induction l with
  | nil => simp [List.dropWhile]
  | cons a as ih =>
    intro c h
    by_cases ha : isSpaceChar a = true
    · rw [List.dropWhile_cons_of_pos ha] at h
      exact ih c h
    · rw [List.dropWhile_cons_of_neg ha] at h
      simp only [List.head?_cons, Option.some_inj] at h
      subst h
      simpa using ha

theorem dropWhile_eq_self_of_headOK {l : List Char} (h : HeadOK l) :
    l.dropWhile isSpaceChar = l := by
  cases l with
  | nil => rfl
  | cons a as =>
    have h1 := h a rfl
    rw [List.dropWhile_cons_of_neg (by simp [h1])]

theorem pyStrip_eq_self {l : List Char} (h1 : HeadOK l) (h2 : LastOK l) :
    pyStrip l = l := by
  unfold pyStrip lstrip
  rw [dropWhile_eq_self_of_headOK h1]
  rw [dropWhile_eq_self_of_headOK (fun c hc => h2 c (by rwa [List.head?_reverse] at hc))]
  exact List.reverse_reverse l

theorem pyStrip_lastOK (s : List Char) : LastOK (pyStrip s) := by
  intro c hc
  unfold pyStrip at hc
  rw [List.getLast?_reverse] at hc
  exact head?_dropWhile_not_space _ c hc

theorem pyStrip_headOK (s : List Char) : HeadOK (pyStrip s) := by
  intro c hc
  unfold pyStrip at hc
  obtain ⟨p, hp⟩ := @List.dropWhile_suffix _ ((lstrip s).reverse) isSpaceChar
  have hu : lstrip s = ((lstrip s).reverse.dropWhile isSpaceChar).reverse ++ p.reverse := by
    have h2 := congrArg List.reverse hp
    rw [List.reverse_append, List.reverse_reverse] at h2
    exact h2.symm
  have key : ∀ (Y z : List Char), Y.head? = some c → (Y ++ z).head? = some c := by
    intro Y z h
    cases Y with
    | nil => simp at h
    | cons a t => simpa using h
  have hh : (lstrip s).head? = some c := by
    rw [hu]
    exact key _ _ hc
  exact head?_dropWhile_not_space s c hh

theorem mem_pyStrip {c : Char} {s : List Char} (h : c ∈ pyStrip s) : c ∈ s := by
  unfold pyStrip at h
  rw [List.mem_reverse] at h
  have h2 : c ∈ (lstrip s).reverse :=
    (List.dropWhile_suffix isSpaceChar).sublist.subset h
  rw [List.mem_reverse] at h2
  unfold lstrip at h2
  exact (List.dropWhile_suffix isSpaceChar).sublist.subset h2

theorem noAdj_reverse {l : List Char} (h : NoAdj l) : NoAdj l.reverse := by
  unfold NoAdj at h ⊢
  rw [List.chain'_reverse]
  exact h.imp (fun a b hab => fun hab2 => hab ⟨hab2.2, hab2.1⟩)

theorem noAdj_dropWhile {l : List Char} (h : NoAdj l) :
    NoAdj (l.dropWhile isSpaceChar) := by
  unfold NoAdj at h ⊢
  obtain ⟨p, hp⟩ := @List.dropWhile_suffix _ l isSpaceChar
  rw [← hp] at h
  exact h.right_of_append

theorem noAdj_pyStrip {l : List Char} (h : NoAdj l) : NoAdj (pyStrip l) := by
  unfold pyStrip lstrip
  exact noAdj_reverse (noAdj_dropWhile (noAdj_reverse (noAdj_dropWhile h)))

theorem stripNonWord_eq_self_of_good {l : List Char}
    (h : ∀ c ∈ l, goodChar c = true) : stripNonWord l = l := by
  unfold stripNonWord
  rw [List.filter_eq_self]
  intro a ha
  have h1 := h a ha
  simp only [goodChar, Bool.or_eq_true, beq_iff_eq] at h1
  rcases h1 with hw | rfl
  · simp [hw]
  · simp [isSpaceChar]

theorem collapseWS_eq_self {l : List Char}
    (hg : ∀ c ∈ l, goodChar c = true) (hn : NoAdj l) : collapseWS l = l := by
  induction l using collapseWS.induct with
  | case1 => rfl
  | case2 c hc =>
    have h1 := hg c (by simp)
    simp only [goodChar, Bool.or_eq_true, beq_iff_eq] at h1
    rcases h1 with h1 | rfl
    · exact absurd h1 (by simp [space_not_word c hc])
    · simp [collapseWS, if_pos hc]
  | case3 c hc => simp [collapseWS, if_neg hc]
  | case4 c d rest hc hd ih =>
    unfold NoAdj at hn
    rw [List.chain'_cons] at hn
    exact absurd ⟨hc, hd⟩ hn.1
  | case5 c d rest hc hd ih =>
    have hn' : NoAdj (d :: rest) := by
      unfold NoAdj at hn ⊢
      exact (List.chain'_cons.mp hn).2
    have hg' : ∀ x ∈ d :: rest, goodChar x = true :=
      fun x hx => hg x (List.mem_cons_of_mem c hx)
    have hceq : c = ' ' := by
      have h1 := hg c (by simp)
      simp only [goodChar, Bool.or_eq_true, beq_iff_eq] at h1
      rcases h1 with h1 | h1
      · exact absurd h1 (by simp [space_not_word c hc])
      · exact h1
    simp [collapseWS, if_pos hc, if_neg hd, ih hg' hn', hceq]
  | case6 c d rest hc ih =>
    have hn' : NoAdj (d :: rest) := by
      unfold NoAdj at hn ⊢
      exact (List.chain'_cons.mp hn).2
    have hg' : ∀ x ∈ d :: rest, goodChar x = true :=
      fun x hx => hg x (List.mem_cons_of_mem c hx)
    simp [collapseWS, if_neg hc, ih hg' hn']

theorem sanitize_query_good (s : List Char) :
    ∀ c ∈ sanitize_query s, goodChar c = true := by
  intro c hc
  have h1 : c ∈ collapseWS (stripNonWord s) := mem_pyStrip hc
  exact collapseWS_good (fun y hy => mem_stripNonWord hy) c h1

theorem sanitize_query_noAdj (s : List Char) : NoAdj (sanitize_query s) :=
  noAdj_pyStrip (collapseWS_noAdj (stripNonWord s))

theorem sanitize_query_headOK (s : List Char) : HeadOK (sanitize_query s) :=
  pyStrip_headOK (collapseWS (stripNonWord s))

theorem sanitize_query_lastOK (s : List Char) : LastOK (sanitize_query s) :=
  pyStrip_lastOK (collapseWS (stripNonWord s))

theorem sanitize_query_fixed (s : List Char) :
    sanitize_query (sanitize_query s) = sanitize_query s := by
  show pyStrip (collapseWS (stripNonWord (sanitize_query s))) = sanitize_query s
  rw [stripNonWord_eq_self_of_good (sanitize_query_good s),
    collapseWS_eq_self (sanitize_query_good s) (sanitize_query_noAdj s)]
  exact pyStrip_eq_self (sanitize_query_headOK s) (sanitize_query_lastOK s)

/-! ## Claim theorems -/

theorem fallback_response_length_le (seed : Nat) :
    (fallback_response seed).length ≤ 5 := by
  have h5 : FALLBACK_SONGS.length = 5 := rfl
  simp [fallback_response, get_songs, randomSample, List.length_take,
    List.length_rotate, h5]

theorem fallback_response_subset (seed : Nat) :
    fallback_response seed ⊆ FALLBACK_SONGS := by
  intro x hx
  unfold fallback_response get_songs randomSample at hx
  exact List.mem_rotate.mp (List.mem_of_mem_take hx)

/-- C9: sanitization is idempotent: for every string `q`,
`sanitize_query (sanitize_query q) = sanitize_query q`. -/
theorem C9_sanitize_idempotent (q : List Char) :
    sanitize_query (sanitize_query q) = sanitize_query q :=
  sanitize_query_fixed q

/-- C2 counterexample: the claim says sanitization removes every character
that is neither alphanumeric nor whitespace, so in particular an
underscore cannot survive.  But the source filters with the regex class
`\w`, which keeps the underscore: `sanitize_query "_" = "_"` although
`'_'` is neither alphanumeric nor whitespace. -/
theorem C2_counterexample :
    sanitize_query ['_'] = ['_'] ∧
    Char.isAlphanum '_' = false ∧ isSpaceChar '_' = false := by
  decide

/-- C2 (amended): `sanitize_query` removes exactly the characters that are
neither word characters (alphanumeric or underscore) nor whitespace, then
collapses whitespace runs to a single space, then trims; consequently
every character of the output is alphanumeric, an underscore, or a single
space. -/
theorem C2_amended_sanitize_characterization (s : List Char) :
    sanitize_query s =
      pyStrip (collapseWS (s.filter (fun c => c.isAlphanum || c == '_' || isSpaceChar c))) ∧
    (sanitize_query s).all (fun c => c.isAlphanum || c == '_' || c == ' ') = true := by
  constructor
  · unfold sanitize_query stripNonWord
    have hfc : ∀ c ∈ s,
        (isWordChar c || isSpaceChar c) = (c.isAlphanum || c == '_' || isSpaceChar c) := by
      intro c _
      simp [isWordChar, Bool.or_assoc]
    rw [List.filter_congr hfc]
  · rw [List.all_eq_true]
    intro c hc
    have h1 := sanitize_query_good s c hc
    simp only [goodChar, isWordChar, Bool.or_eq_true] at h1 ⊢
    tauto

/-- C1: for a valid query (at least 2 characters after trimming) that is
not cached, if the Search Client raises during `handle`, then `handle`
returns a sample of length at most 5 drawn from the fixed fallback song
catalog instead of propagating, and the cache still has no entry for the
query afterwards.  (`fallback_response` is modelled from the spec, being
absent from `src/`.) -/
theorem C1_handle_fallback_on_raise
    (client : List Char → Except Unit (List Song)) (sSeed fSeed : Nat)
    (st : SuggestionHandlerState) (raw : List Char)
    (hvalid : 2 ≤ (pyStrip raw).length)
    (hmiss : cacheLookup (sanitize_query (pyStrip raw)) st.cache = none)
    (hraise : client (sanitize_query (pyStrip raw)) = .error ()) :
    (handle client sSeed fSeed st raw).1.length ≤ 5 ∧
    (handle client sSeed fSeed st raw).1 ⊆ FALLBACK_SONGS ∧
    cacheLookup (sanitize_query (pyStrip raw)) (handle client sSeed fSeed st raw).2.cache = none := by
  have hout : handle client sSeed fSeed st raw =
      (fallback_response fSeed, { st with client_calls := st.client_calls + 1 }) := by
    unfold handle
    rw [if_neg (by omega)]
    simp only [hmiss, hraise]
  rw [hout]
  exact ⟨fallback_response_length_le fSeed, fallback_response_subset fSeed, hmiss⟩

/-- Witness for C1 at a concrete fresh state and always-raising client. -/
theorem C1_witness :
    (handle (fun _ => Except.error ()) 0 0 ⟨[], 0⟩ ['a', 'b']).1.length ≤ 5 ∧
    (handle (fun _ => Except.error ()) 0 0 ⟨[], 0⟩ ['a', 'b']).1 ⊆ FALLBACK_SONGS ∧
    cacheLookup (sanitize_query (pyStrip ['a', 'b']))
      (handle (fun _ => Except.error ()) 0 0 ⟨[], 0⟩ ['a', 'b']).2.cache = none :=
  C1_handle_fallback_on_raise (fun _ => Except.error ()) 0 0 ⟨[], 0⟩ ['a', 'b']
    (by decide) (by decide) rfl

/-- An external call that always raises (e.g. a transport error), used to
exercise the Search Client's failure conversion. -/
def failingExecute : List Char → Nat → Except Unit (List RawItem) :=
  fun _ _ => .error ()

/-- C3 counterexample: the claim says a `handle` invocation during which
the external search call fails — including failures the Search Client
converts into an empty sequence — never creates a cache entry.  But when
the external call raises, `YouTubeCommunicator.search` swallows the error
and returns `[]`, which `handle` then ranks and stores: after
`handle "ab"` against an always-raising external service the cache holds
the entry `("ab", [])`. -/
theorem C3_counterexample :
    failingExecute ['a', 'b'] 7 = Except.error () ∧
    (handle (ytClient failingExecute) 0 0 ⟨[], 0⟩ ['a', 'b']).2.cache
      = [(['a', 'b'], [])] :=
  ⟨rfl, by decide⟩

/-- C3 (amended): on a valid, uncached query, a cache entry is created
exactly when the Search Client call returns normally and the reorder step
succeeds — which includes the empty sequence the Search Client substitutes
for external failures, so such converted failures do cache `[]`; an
invocation during which the client call (or the reorder) raises never
creates an entry. -/
theorem C3_amended_cache_creation
    (client : List Char → Except Unit (List Song)) (sSeed fSeed : Nat)
    (st : SuggestionHandlerState) (raw : List Char)
    (hvalid : 2 ≤ (pyStrip raw).length)
    (hmiss : cacheLookup (sanitize_query (pyStrip raw)) st.cache = none) :
    (handle client sSeed fSeed st raw).2.cache =
      match client (sanitize_query (pyStrip raw)) with
      | .error _ => st.cache
      | .ok results =>
        match rank_results sSeed results with
        | .error _ => st.cache
        | .ok ranked => (sanitize_query (pyStrip raw), ranked) :: st.cache := by
  unfold handle
  rw [if_neg (by omega)]
  simp only [hmiss]
  cases hc : client (sanitize_query (pyStrip raw)) with
  | error e => simp [hc]
  | ok results =>
    cases hr : rank_results sSeed results with
    | error e => simp [hc, hr]
    | ok ranked => simp [hc, hr]

/-- Witness for C3 at a concrete client returning the empty sequence. -/
theorem C3_witness :
    (handle (fun _ => Except.ok []) 0 0 ⟨[], 0⟩ ['a', 'b']).2.cache =
      [(sanitize_query (pyStrip ['a', 'b']), [])] :=
  C3_amended_cache_creation (fun _ => Except.ok []) 0 0 ⟨[], 0⟩ ['a', 'b']
    (by decide) (by decide)

/-- A concrete song used in the C8 scenario. -/
def songX : Song :=
  ⟨some "x", none, "vid1", none⟩

/-- A Search Client that always returns the single song `songX`. -/
def clientX : List Char → Except Unit (List Song) :=
  fun _ => .ok [songX]

/-- Handler state reached from a fresh handler by one successful
`handle "a!"` call, which caches the ranked result under the sanitized
key `"a"`. -/
def stX : SuggestionHandlerState :=
  (handle clientX 0 0 ⟨[], 0⟩ ['a', '!']).2

/-- C8 counterexample: the claim quantifies over every query whose
sanitized form is a cached key.  The raw query `"a"` sanitizes to `"a"`,
which is a key of `stX.cache` (bound to `[songX]`), yet `handle "a"`
returns `[]` — the 2-character guard fires before the cache lookup — not
the cached sequence. -/
theorem C8_counterexample :
    cacheLookup (sanitize_query (pyStrip ['a'])) stX.cache = some [songX] ∧
    (handle clientX 0 0 stX ['a']).1 = [] ∧
    ([] : List Song) ≠ [songX] := by
  decide

/-- C8 (amended): for every query of length at least 2 after trimming
whose sanitized form is already a key in the cache, `handle` returns
exactly the cached sequence and leaves the whole handler state — the
cache and the Search Client's request counter — unchanged, performing no
external call. -/
theorem C8_amended_cache_hit
    (client : List Char → Except Unit (List Song)) (sSeed fSeed : Nat)
    (st : SuggestionHandlerState) (raw : List Char) (v : List Song)
    (hvalid : 2 ≤ (pyStrip raw).length)
    (hhit : cacheLookup (sanitize_query (pyStrip raw)) st.cache = some v) :
    handle client sSeed fSeed st raw = (v, st) := by
  unfold handle
  rw [if_neg (by omega)]
  simp only [hhit]

/-- Witness for C8 at a concrete cached state. -/
theorem C8_witness :
    handle clientX 3 4 ⟨[(['a', 'b'], [songX])], 7⟩ ['a', 'b']
      = ([songX], ⟨[(['a', 'b'], [songX])], 7⟩) :=
  C8_amended_cache_hit clientX 3 4 ⟨[(['a', 'b'], [songX])], 7⟩ ['a', 'b'] [songX]
    (by decide) (by decide)

/-- The retry loop against a function that always raises: the function is
called once per unit of gas and the retry counter advances with it. -/
theorem recoveryLoop_allFail (f : Nat → Except Unit (List Song)) (seed : Nat)
    (hf : ∀ n, f n = .error ()) :
    ∀ gas retry calls, recoveryLoop f seed gas retry calls
      = (get_songs seed 5, retry + gas, calls + gas) := by
  intro gas
  induction gas with
  | zero => intro retry calls; rfl
  | succ g ihg =>
    intro retry calls
    show (match f calls with
      | .ok r => (r, retry, calls + 1)
      | .error _ => recoveryLoop f seed g (retry + 1) (calls + 1))
      = (get_songs seed 5, retry + (g + 1), calls + (g + 1))
    rw [hf calls]
    rw [show retry + (g + 1) = (retry + 1) + g by omega,
      show calls + (g + 1) = (calls + 1) + g by omega]
    exact ihg (retry + 1) (calls + 1)

/-- A function that raises on every call. -/
def alwaysRaise : Nat → Except Unit (List Song) :=
  fun _ => .error ()

/-- C4 counterexample: the claim quantifies over every `FallbackHandler`
instance, but the retry counter is cumulative.  After one exhausted
recovery pass the same instance has `retry_count = 3`, and a second
`attempt_recovery` with an always-raising function calls it 0 times,
not `maxRetries` (3). -/
theorem C4_counterexample :
    (attempt_recovery FallbackHandler.init alwaysRaise 0).2.1 = ⟨3, 3⟩ ∧
    (attempt_recovery (attempt_recovery FallbackHandler.init alwaysRaise 0).2.1
      alwaysRaise 0).2.2 = 0 ∧
    (0 : Nat) ≠ 3 := by
  decide

/-- C4 (amended): for every freshly initialized `FallbackHandler`
(cumulative retry counter still 0) and every function that always raises,
`attempt_recovery` calls the function exactly `max_retries` (3) times,
then returns — without raising — a song sample of length at most 5 drawn
from the fallback catalog, leaving the counter at 3. -/
theorem C4_amended_fresh_recovery
    (f : Nat → Except Unit (List Song)) (seed : Nat)
    (hf : ∀ n, f n = .error ()) :
    attempt_recovery FallbackHandler.init f seed = (get_songs seed 5, ⟨3, 3⟩, 3) ∧
    (get_songs seed 5).length ≤ 5 ∧ get_songs seed 5 ⊆ FALLBACK_SONGS := by
  refine ⟨?_, fallback_response_length_le seed, fallback_response_subset seed⟩
  unfold attempt_recovery FallbackHandler.init
  simp [recoveryLoop_allFail f seed hf]

/-- Witness for C4 on the concrete always-raising function. -/
theorem C4_witness :
    attempt_recovery FallbackHandler.init alwaysRaise 0 = (get_songs 0 5, ⟨3, 3⟩, 3) ∧
    (get_songs 0 5).length ≤ 5 ∧ get_songs 0 5 ⊆ FALLBACK_SONGS :=
  C4_amended_fresh_recovery alwaysRaise 0 (fun _ => rfl)

/-- C5: normalization drops exactly the records lacking a (non-falsy)
video identifier, keeps all records that have one, normalizes each kept
record in place, and preserves the relative order of the kept records —
stated as the equality of `parse_response` with filter-then-map, whose
filter keeps order by construction.  ("Lacking an identifier" is
`hasVideoId = false`: the source tests `if not video_id`, and in Python
both a missing identifier and an empty one are falsy, matching the spec's
invariant that live-sourced `video_id` is present and non-empty.) -/
theorem C5_parse_response_characterization (items : List RawItem) :
    parse_response items =
      (items.filter hasVideoId).map
        (fun it => ⟨it.title, it.description, it.videoId.getD "", it.thumbnail⟩) := by
  induction items with
  | nil => rfl
  | cons it rest ih =>
    cases hv : it.videoId with
    | none =>
      have hid : hasVideoId it = false := by simp [hasVideoId, hv]
      simp [parse_response, hv, List.filter_cons, hid, ih]
    | some vid =>
      cases he : vid.isEmpty with
      | true =>
        have hid : hasVideoId it = false := by simp [hasVideoId, hv, he]
        simp [parse_response, hv, he, List.filter_cons, hid, ih]
      | false =>
        have hid : hasVideoId it = true := by simp [hasVideoId, hv, he]
        simp [parse_response, hv, he, List.filter_cons, hid, ih]

/-- C6: a webhook POST whose JSON body is an object lacking `event_type`
yields HTTP 400 synchronously, increments the failed-events counter by
exactly 1, never increments the processed-events counter (no background
task is spawned, so this also holds after asynchronous processing), and
increments the received counter as every request does. -/
theorem C6_webhook_missing_event_type
    (m : WebhookMetrics) (fields : List (String × JVal))
    (hmiss : hasKey fields "event_type" = false) :
    webhook_endpoint m (some (.obj fields)) =
      (400, ⟨m.events_received + 1, m.events_processed, m.events_failed + 1⟩, none) ∧
    webhook_request m (some (.obj fields)) =
      (400, ⟨m.events_received + 1, m.events_processed, m.events_failed + 1⟩) := by
  have hval : validate_payload (.obj fields) = .error "Missing event_type field" := by
    simp [validate_payload, hmiss]
  constructor
  · simp [webhook_endpoint, hval]
  · simp [webhook_request, webhook_endpoint, hval]

/-- Witness for C6 at the body from the spec, `{"data": {}}`. -/
theorem C6_witness :
    webhook_endpoint ⟨0, 0, 0⟩ (some (.obj [("data", JVal.obj [])])) =
      (400, ⟨1, 0, 1⟩, none) ∧
    webhook_request ⟨0, 0, 0⟩ (some (.obj [("data", JVal.obj [])])) =
      (400, ⟨1, 0, 1⟩) :=
  C6_webhook_missing_event_type ⟨0, 0, 0⟩ [("data", JVal.obj [])] (by decide)

/-- C7: a `suggestion_update` event with query `"abc"` and room `"r"`
increments the events-received counter and emits to room `"r"` exactly
the 5 locally generated suggestion records, whose video identifiers are
`"abc_0"` through `"abc_4"`; `generate_suggestions` takes no Search
Client, so no external call can be involved. -/
theorem C7_suggestion_update_abc (m : Nat) :
    handle_suggestion_update m (some (strChars "abc")) (some ['r'])
      = (m + 1, ['r'], generate_suggestions (strChars "abc")) ∧
    (generate_suggestions (strChars "abc")).length = 5 ∧
    (generate_suggestions (strChars "abc")).map (fun r => r.video_id)
      = [strChars "abc_0", strChars "abc_1", strChars "abc_2",
         strChars "abc_3", strChars "abc_4"] :=
  ⟨rfl, by decide, by decide⟩

/-- C10: `health_check` returns `True` for every behaviour of the
external provider — including one that always raises — because `search`
catches every exception at its boundary and converts it into the empty
sequence, so the failure branch of `health_check` is unreachable; the
second conjunct states that boundary fact: `search` always returns
normally (`Except.ok`). -/
theorem C10_health_check_always_true
    (execute : List Char → Nat → Except Unit (List RawItem)) (count : Nat)
    (q : List Char) (mr : Option Nat) (c0 : Nat) :
    health_check execute count = (true, count + 1) ∧
    ∃ res, (search execute q mr c0).1 = Except.ok res := by
  constructor
  · unfold health_check search
    rw [if_neg (by decide)]
    cases hE : execute ['t', 'e', 's', 't'] (resolveMaxResults (some 1)) with
    | ok resp => simp [hE]
    | error e => simp [hE]
  · unfold search
    cases hq : q.isEmpty with
    | true => exact ⟨[], rfl⟩
    | false =>
      cases hE : execute q (resolveMaxResults mr) with
      | ok resp => exact ⟨parse_response resp, by simp [hE]⟩
      | error e => exact ⟨[], by simp [hE]⟩
